import Mathlib

/-!
Shallow embedding of the GST reconciliation engine
(`src/reconciliation_engine.py`) together with proofs about its
specification.

Modelling conventions:
* A pandas cell is a `Value`: missing (`NaN`), a string, or a number
  (decimal amounts are modelled as `ℚ`).
* Python strings are Lean `String`s; `str.strip`, `str.upper`, `str.lower`
  and `float(...)` are modelled on the ASCII data the engine handles
  (no exponent literals, no unicode case mapping).
* A raw spreadsheet (a `pd.DataFrame` read without a header row) is a
  `List (List Value)` of rows.
* The `ValueError` / `KeyError` outcomes of the Python parsers are the
  constructors of `ParseErr`; parsers return a `PResult`.
* In-place mutation of a dataframe argument (`reconcile` assigns a
  `Match_Key` column to both of its inputs) is modelled by returning the
  updated tables alongside the result.
-/

namespace GstRecon

/-- A pandas cell value: `NaN`, a string, or a numeric value. -/
inductive Value where
  | na : Value
  | s (v : String) : Value
  | n (v : ℚ) : Value
deriving DecidableEq

/-- ASCII model of Python `str.upper` on one character. -/
def upChar (c : Char) : Char :=
  if 97 ≤ c.toNat ∧ c.toNat ≤ 122 then Char.ofNat (c.toNat - 32) else c

/-- ASCII model of Python `str.lower` on one character. -/
def lowChar (c : Char) : Char :=
  if 65 ≤ c.toNat ∧ c.toNat ≤ 90 then Char.ofNat (c.toNat + 32) else c

/-- Whitespace as removed by Python `str.strip` (ASCII subset). -/
def wsChar (c : Char) : Bool :=
  decide (c.toNat = 32 ∨ c.toNat = 9 ∨ c.toNat = 10 ∨ c.toNat = 13 ∨
    c.toNat = 11 ∨ c.toNat = 12)

/-- Characters kept by the `re.sub(r'[^A-Z0-9]', '', ...)` in
`clean_invoice_number`: upper-case ASCII letters and digits. -/
def keepChar (c : Char) : Bool :=
  decide ((65 ≤ c.toNat ∧ c.toNat ≤ 90) ∨ (48 ≤ c.toNat ∧ c.toNat ≤ 57))

/-- Python `str.strip`: drop leading and trailing whitespace. -/
def pyStrip (l : List Char) : List Char :=
  ((l.dropWhile wsChar).reverse.dropWhile wsChar).reverse

/-- Python `str(x)` for a cell: `str(np.nan)` is `"nan"`; numbers render
as their decimal text (the exact numeral text never matters to the
engine's keyword matching, which only looks for alphabetic markers). -/
def strOfValue : Value → String
  | .na => "nan"
  | .s v => v
  | .n q => toString q

/-- Python `str.upper` (ASCII). -/
def upStr (s : String) : String := ⟨s.data.map upChar⟩

/-- Python `str.lower` (ASCII). -/
def lowStr (s : String) : String := ⟨s.data.map lowChar⟩

/-- Python `str.strip` on a string. -/
def stripStr (s : String) : String := ⟨pyStrip s.data⟩

/-- Embedding of `clean_string` (reconciliation_engine.py lines 6-9):
`NaN` becomes `""`, anything else is `str(val).strip().upper()`. -/
def clean_string (val : Value) : String :=
  match val with
  | .na => ""
  | v => upStr (stripStr (strOfValue v))

/-- Embedding of `clean_invoice_number` (lines 12-15): `NaN` becomes
`""`, anything else is `str(v).strip().upper()` with every character
outside `[A-Z0-9]` removed. -/
def clean_invoice_number (inv_no : Value) : String :=
  match inv_no with
  | .na => ""
  | v => ⟨(((pyStrip (strOfValue v).data).map upChar).filter keepChar)⟩

/-- Substring test (Python `needle in hay`) on character lists. -/
def containsSub (needle : List Char) : List Char → Bool
  | [] => needle.isPrefixOf []
  | c :: t => needle.isPrefixOf (c :: t) || containsSub needle t

/-- Python `needle in hay` on strings. -/
def strContains (needle hay : String) : Bool := containsSub needle.data hay.data

def isDigitChar (c : Char) : Bool := decide (48 ≤ c.toNat ∧ c.toNat ≤ 57)

def allDigits (l : List Char) : Bool := l.all isDigitChar

def natOfDigits (l : List Char) : Nat :=
  l.foldl (fun acc c => acc * 10 + (c.toNat - 48)) 0

/-- Python `str.split(sep)` on character lists. -/
def splitOnChar (sep : Char) : List Char → List (List Char)
  | [] => [[]]
  | c :: t =>
    match splitOnChar sep t with
    | [] => [[c]]
    | h :: r => if c = sep then [] :: h :: r else (c :: h) :: r

/-- Decimal-literal part of Python `float(...)`: digits with an optional
fractional part (the engine's amounts are plain decimals; exponent and
special-float literals are outside the modelled subset). -/
def strToRatCore (l : List Char) : Option ℚ :=
  match splitOnChar '.' l with
  | [ip] => if ip ≠ [] ∧ allDigits ip = true then some ((natOfDigits ip : ℚ)) else none
  | [ip, fp] =>
    if ip ++ fp ≠ [] ∧ allDigits ip = true ∧ allDigits fp = true then
      some ((natOfDigits ip : ℚ) + (natOfDigits fp : ℚ) / (10 : ℚ) ^ fp.length)
    else none
  | _ => none

/-- Python `float(...)` on a trimmed string (modelled decimal subset). -/
def strToRat? : List Char → Option ℚ
  | '-' :: rest => (strToRatCore rest).map (fun q => -q)
  | '+' :: rest => strToRatCore rest
  | l => strToRatCore l

/-- Left-to-right non-overlapping removal of `pat` (Python
`str.replace(pat, '')`), driven by a fuel argument so that it is
structurally recursive. -/
def removeSubAux (pat : List Char) : Nat → List Char → List Char
  | _, [] => []
  | 0, l => l
  | fuel + 1, c :: rest =>
    if pat.isPrefixOf (c :: rest) ∧ pat ≠ [] then
      removeSubAux pat fuel ((c :: rest).drop pat.length)
    else
      c :: removeSubAux pat fuel rest

def removeSub (pat : String) (l : List Char) : List Char :=
  removeSubAux pat.data l.length l

/-- Embedding of `parse_numeric` (lines 18-27): `NaN` and unparseable
strings give `0.0`; numbers pass through; strings are parsed after
removing `Dr`, `Cr` and `,` and stripping whitespace. -/
def parse_numeric (value : Value) : ℚ :=
  match value with
  | .na => 0
  | .n q => q
  | .s str =>
    (strToRat? (pyStrip (removeSub "," (removeSub "Cr" (removeSub "Dr" str.data))))).getD 0

/-- Embedding of `pd.to_numeric(..., errors='coerce').fillna(0)` used by
`parse_gstr2b` (line 253): plain numeric strings parse, everything else
(including comma-grouped text) coerces to `NaN` and then fills as `0`. -/
def toNumericQ (v : Value) : ℚ :=
  match v with
  | .na => 0
  | .n q => q
  | .s str => (strToRat? (pyStrip str.data)).getD 0

/-- A calendar date (year, month, day). -/
structure DateYMD where
  y : Nat
  m : Nat
  d : Nat
deriving DecidableEq

def isLeap (y : Nat) : Bool := decide ((y % 4 = 0 ∧ y % 100 ≠ 0) ∨ y % 400 = 0)

def daysInMonth (y m : Nat) : Nat :=
  if m = 2 then (if isLeap y then 29 else 28)
  else if m = 4 ∨ m = 6 ∨ m = 9 ∨ m = 11 then 30
  else 31

def validYMD (y m d : Nat) : Bool :=
  decide (1 ≤ m ∧ m ≤ 12 ∧ 1 ≤ d) && decide (d ≤ daysInMonth y m)

/-- Month from a three-letter abbreviation, case-insensitively
(`strptime` `%b`). -/
def monthOfAbbrev (l : List Char) : Option Nat :=
  let s := l.map lowChar
  if s = "jan".data then some 1
  else if s = "feb".data then some 2
  else if s = "mar".data then some 3
  else if s = "apr".data then some 4
  else if s = "may".data then some 5
  else if s = "jun".data then some 6
  else if s = "jul".data then some 7
  else if s = "aug".data then some 8
  else if s = "sep".data then some 9
  else if s = "oct".data then some 10
  else if s = "nov".data then some 11
  else if s = "dec".data then some 12
  else none

/-- `strptime` `%y`: two-digit years 0-68 are 2000s, 69-99 are 1900s. -/
def yearFrom2 (yy : Nat) : Nat := if yy ≤ 68 then 2000 + yy else 1900 + yy

/-- `pd.to_datetime(..., format='%d-%b-%y', errors='coerce')` used by
`parse_tally` (line 86): `dd-Mon-yy`, anything else coerces to `NaT`. -/
def parseDateTally (v : Value) : Option DateYMD :=
  match v with
  | .s str =>
    match splitOnChar '-' str.data with
    | [ds, ms, ys] =>
      if allDigits ds = true ∧ 1 ≤ ds.length ∧ ds.length ≤ 2 ∧
          allDigits ys = true ∧ 1 ≤ ys.length ∧ ys.length ≤ 2 then
        match monthOfAbbrev ms with
        | some m =>
          let d := natOfDigits ds
          let y := yearFrom2 (natOfDigits ys)
          if validYMD y m d = true then some ⟨y, m, d⟩ else none
        | none => none
      else none
    | _ => none
  | _ => none

/-- `pd.to_datetime(..., errors='coerce', dayfirst=True)` used by
`parse_gstr2b` (line 244), modelled on the numeric `dd-mm-yyyy`,
`dd/mm/yyyy` and ISO `yyyy-mm-dd` layouts the statement files use. -/
def parseDateFlex (v : Value) : Option DateYMD :=
  match v with
  | .s str =>
    let l := pyStrip str.data
    let parts := if containsSub ['-'] l then splitOnChar '-' l else splitOnChar '/' l
    match parts with
    | [a, b, c] =>
      if allDigits a = true ∧ a ≠ [] ∧ allDigits b = true ∧ b ≠ [] ∧
          allDigits c = true ∧ c ≠ [] then
        if a.length = 4 then
          if validYMD (natOfDigits a) (natOfDigits b) (natOfDigits c) = true then
            some ⟨natOfDigits a, natOfDigits b, natOfDigits c⟩
          else none
        else if c.length = 4 then
          if validYMD (natOfDigits c) (natOfDigits b) (natOfDigits a) = true then
            some ⟨natOfDigits c, natOfDigits b, natOfDigits a⟩
          else none
        else none
      else none
    | _ => none
  | _ => none

/-- Day ordinal of a civil date (the standard days-from-civil formula;
models the pandas timestamp so that subtracting two dates counts days).
All parsed years are positive, where truncated and floor division
agree. -/
def dateOrdinal (dt : DateYMD) : Int :=
  let y : Int := if dt.m ≤ 2 then (dt.y : Int) - 1 else (dt.y : Int)
  let era : Int := y / 400
  let yoe : Int := y - era * 400
  let mp : Int := ((dt.m : Int) + 9) % 12
  let doy : Int := (153 * mp + 2) / 5 + (dt.d : Int) - 1
  let doe : Int := yoe * 365 + yoe / 4 - yoe / 100 + doy
  era * 146097 + doe - 719468

def pad2 (n : Nat) : String := if n < 10 then "0" ++ toString n else toString n

/-- `Invoice_Date.dt.to_period('M').astype(str)`: `YYYY-MM`, `NaT` for a
missing date. -/
def monthStr : Option DateYMD → String
  | none => "NaT"
  | some dt => toString dt.y ++ "-" ++ pad2 dt.m

/- ### Canonical rows and shared normalizer plumbing -/

def Value.isNa : Value → Bool
  | .na => true
  | _ => false

/-- A row of the intermediate dataframe of a normalizer, before
duplicate and bad-date rows are dropped. -/
structure PreRow where
  gstin : String
  inv : String
  dateOpt : Option DateYMD
  trade : Value
  taxable : ℚ
  invVal : ℚ
  igst : ℚ
  cgst : ℚ
  sgst : ℚ
  tot : ℚ
deriving DecidableEq

/-- A row of the canonical invoice table both normalizers return. -/
structure CanonRow where
  gstin : String
  trade_name : Value
  invoice_no : String
  invoice_date : Int
  month : String
  taxable_value : ℚ
  invoice_value : ℚ
  igst : ℚ
  cgst : ℚ
  sgst : ℚ
  total_tax : ℚ
deriving DecidableEq

def toCanon (p : PreRow) : CanonRow :=
  { gstin := p.gstin, trade_name := p.trade, invoice_no := p.inv,
    invoice_date := (p.dateOpt.map dateOrdinal).getD 0,
    month := monthStr p.dateOpt,
    taxable_value := p.taxable, invoice_value := p.invVal,
    igst := p.igst, cgst := p.cgst, sgst := p.sgst, total_tax := p.tot }

/-- `drop_duplicates(subset=..., keep='first')`: keep the first row for
each key, tracking the keys already seen. -/
def dedupBy {α : Type} {β : Type} [DecidableEq β] (key : α → β) :
    List β → List α → List α
  | _, [] => []
  | seen, a :: l =>
    if key a ∈ seen then dedupBy key seen l
    else a :: dedupBy key (key a :: seen) l

def keyPair (p : PreRow) : String × String := (p.gstin, p.inv)

/-- Lines 126-128 / 263-264 of both normalizers: drop duplicate
`(GSTIN, Invoice_No)` keys keeping the first, then drop rows whose
`Invoice_Date` failed to parse. -/
def finalizeRows (pre : List PreRow) : List CanonRow :=
  ((dedupBy keyPair [] pre).filter (fun p => p.dateOpt.isSome)).map toCanon

/-- Structured model of the `ValueError` / `KeyError` exits of the two
parsers. -/
inductive ParseErr where
  | headerNotDetected
  | requiredMissing
  | seriesAmbiguous
  | keyErrorTrade
deriving DecidableEq

/-- Outcome of a normalizer: a canonical table, or a raised error. -/
inductive PResult where
  | ok (rows : List CanonRow)
  | err (e : ParseErr)
deriving DecidableEq

def nthRow (df : List (List Value)) (i : Nat) : List Value := df.getD i []

def cellAt (row : List Value) (i : Nat) : Value := row.getD i .na

def colIdx (cols : List String) (nm : String) : Nat := cols.findIdx (fun c => c == nm)

/- ### Books normalizer: `parse_tally` (lines 32-142) -/

/-- Header detection (lines 38-43): a row whose cells contain both a
`date` marker and a `particular` marker (case-insensitive). -/
def tallyMarkerRow (row : List Value) : Bool :=
  row.any (fun x => strContains "date" (lowStr (strOfValue x))) &&
  row.any (fun x => strContains "particular" (lowStr (strOfValue x)))

/-- Lines 37-47: scan the first 15 rows for the marker row; if none is
found, fall back to row 0 (`header_idx = 0`). -/
def tallyHeaderIdx (df : List (List Value)) : Nat :=
  ((List.range (min df.length 15)).find? (fun i => tallyMarkerRow (nthRow df i))).getD 0

/-- Exact column mapping of `parse_tally` (lines 60-74). -/
def mapTallyName (nm : String) : String :=
  if nm = "Date" then "Invoice_Date"
  else if nm = "Particulars" then "Trade_Name"
  else if nm = "Supplier Invoice No." then "Invoice_No"
  else if nm = "GSTIN/UIN" then "GSTIN"
  else if nm = "Gross Total" then "Invoice_Value"
  else nm

/-- Column names after promotion of the header row, `str(col).strip()`
and renaming (lines 50, 57, 74). -/
def tallyCols (df : List (List Value)) : List String :=
  (nthRow df (tallyHeaderIdx df)).map (fun v => mapTallyName (stripStr (strOfValue v)))

/-- Data rows: everything below the header row, minus fully-empty rows
(lines 51-54). -/
def tallyData (df : List (List Value)) : List (List Value) :=
  (df.drop (tallyHeaderIdx df + 1)).filter (fun r => !(r.all Value.isNa))

/-- The `if`/`elif` tax-column classification of lines 94-101. -/
def tallyTaxHit (nm : String) : Bool :=
  let l := lowStr nm
  strContains "input_cgst" l || strContains "input_sgst" l || strContains "input igst" l

/-- Whether any tax column was detected; if so, lines 104-106 apply
`parse_numeric` to a whole pandas Series, whose `pd.isna(...)` truth
test raises `ValueError`. -/
def tallyHasTaxCol (df : List (List Value)) : Bool :=
  (tallyCols df).any tallyTaxHit

/-- Invoice value per row (lines 109-117): the mapped `Invoice_Value`
column if present, else the first column whose name contains `value` or
`total`, else `0`. -/
def tallyInvoiceValue (cols : List String) (row : List Value) : ℚ :=
  if "Invoice_Value" ∈ cols then parse_numeric (cellAt row (colIdx cols "Invoice_Value"))
  else
    match cols.find? (fun c => strContains "value" (lowStr c) || strContains "total" (lowStr c)) with
    | some vc => parse_numeric (cellAt row (colIdx cols vc))
    | none => 0

/-- The cleaned intermediate rows of `parse_tally` (lines 84-124), on
the no-tax-column path where `CGST = SGST = IGST = 0`. -/
def tallyPre (df : List (List Value)) : List PreRow :=
  let cols := tallyCols df
  (tallyData df).map (fun r =>
    let iv := tallyInvoiceValue cols r
    let cg : ℚ := 0
    let sg : ℚ := 0
    let ig : ℚ := 0
    let tot := cg + sg + ig
    { gstin := clean_string (cellAt r (colIdx cols "GSTIN")),
      inv := clean_invoice_number (cellAt r (colIdx cols "Invoice_No")),
      dateOpt := parseDateTally (cellAt r (colIdx cols "Invoice_Date")),
      trade := cellAt r (colIdx cols "Trade_Name"),
      taxable := iv - tot, invVal := iv,
      igst := ig, cgst := cg, sgst := sg, tot := tot })

/-- Embedding of `parse_tally` (lines 32-142). Error order follows the
code: the required-columns check (line 80), then the Series truth-value
`ValueError` when a tax column is detected (lines 104-106), then the
`KeyError` of the final column selection when no `Trade_Name` column was
mapped (line 130). -/
def parse_tally (df : List (List Value)) : PResult :=
  let cols := tallyCols df
  if "GSTIN" ∉ cols ∨ "Invoice_No" ∉ cols ∨ "Invoice_Date" ∉ cols then
    .err .requiredMissing
  else if tallyHasTaxCol df then .err .seriesAmbiguous
  else if "Trade_Name" ∉ cols then .err .keyErrorTrade
  else .ok (finalizeRows (tallyPre df))

/- ### Statement normalizer: `parse_gstr2b` (lines 147-278) -/

/-- First header scan (lines 154-159): a cell containing `gstin`. -/
def g2bScanRow (row : List Value) : Bool :=
  row.any (fun x => strContains "gstin" (lowStr (strOfValue x)))

/-- Alternate scan (lines 163-167): `invoice`, `taxable` or `gst`. -/
def g2bScanRow2 (row : List Value) : Bool :=
  row.any (fun x =>
    strContains "invoice" (lowStr (strOfValue x)) ||
    strContains "taxable" (lowStr (strOfValue x)) ||
    strContains "gst" (lowStr (strOfValue x)))

/-- Header detection of `parse_gstr2b`: `none` models the raised
"GSTR-2B header not detected" `ValueError` (line 170). -/
def g2bHeaderIdx? (df : List (List Value)) : Option Nat :=
  match (List.range (min df.length 30)).find? (fun i => g2bScanRow (nthRow df i)) with
  | some i => some i
  | none => (List.range (min df.length 30)).find? (fun i => g2bScanRow2 (nthRow df i))

/-- `str(x)` after `fillna("")` (used when combining two header rows,
lines 178-184). -/
def strOfFillNa (v : Value) : String :=
  match v with
  | .na => ""
  | w => strOfValue w

/-- Keyword column mapping of `parse_gstr2b` (lines 199-231), evaluated
in the code's `if`/`elif` order on the lowercased name. -/
def mapG2bName (nm : String) : String :=
  let l := lowStr nm
  if strContains "gstin" l then "GSTIN"
  else if strContains "trade" l || strContains "legal" l || strContains "name" l ||
      strContains "supplier" l || strContains "party" l then "Trade_Name"
  else if strContains "invoice number" l || strContains "inv no" l ||
      strContains "invoice no" l || strContains "bill no" l then "Invoice_No"
  else if strContains "invoice date" l || strContains "inv date" l ||
      strContains "bill date" l then "Invoice_Date"
  else if strContains "taxable value" l || strContains "taxable amt" l ||
      strContains "taxable amount" l then "Taxable_Value"
  else if strContains "integrated tax" l || strContains "igst" l then "IGST"
  else if strContains "central tax" l || strContains "cgst" l then "CGST"
  else if strContains "state" l || strContains "sgst" l || strContains "utgst" l then "SGST"
  else nm

/-- Header promotion with the two-row-header merge (lines 172-196):
returns the raw header texts and the index of the first data row. When
the row after the detected header has any non-`nan` text, the two rows
are space-joined per column and data starts two rows further down. -/
def g2bRawNames (df : List (List Value)) (h : Nat) : List String × Nat :=
  if h + 1 < df.length then
    let nxt := (nthRow df (h + 1)).map strOfValue
    if !(nxt.all (fun x => x == "nan")) then
      (List.zipWith (fun a b => stripStr (strOfFillNa a ++ " " ++ strOfFillNa b))
        (nthRow df h) (nthRow df (h + 1)), h + 2)
    else ((nthRow df h).map strOfValue, h + 1)
  else ((nthRow df h).map strOfValue, h + 1)

/-- Column names after stripping and keyword renaming (lines 196, 232),
paired with the first data-row index. -/
def g2bColsAndStart (df : List (List Value)) : List String × Nat :=
  match g2bHeaderIdx? df with
  | none => ([], 0)
  | some h =>
    let pr := g2bRawNames df h
    (pr.1.map (fun nm => mapG2bName (stripStr nm)), pr.2)

/-- Numeric canonical column (lines 250-255): `to_numeric` with zero
fill when the column exists, literal `0` otherwise. -/
def g2bNumeric (cols : List String) (row : List Value) (nm : String) : ℚ :=
  if nm ∈ cols then toNumericQ (cellAt row (colIdx cols nm)) else 0

/-- The cleaned intermediate rows of `parse_gstr2b` (lines 241-261). -/
def g2bPre (df : List (List Value)) : List PreRow :=
  let pr := g2bColsAndStart df
  let cols := pr.1
  ((df.drop pr.2).filter (fun r => !(r.all Value.isNa))).map (fun r =>
    let gstin := upStr (stripStr (strOfValue (cellAt r (colIdx cols "GSTIN"))))
    let tv := g2bNumeric cols r "Taxable_Value"
    let ig := g2bNumeric cols r "IGST"
    let cg := g2bNumeric cols r "CGST"
    let sg := g2bNumeric cols r "SGST"
    let tot := ig + cg + sg
    { gstin := gstin,
      inv := clean_invoice_number (.s (strOfValue (cellAt r (colIdx cols "Invoice_No")))),
      dateOpt := parseDateFlex (cellAt r (colIdx cols "Invoice_Date")),
      trade := if "Trade_Name" ∈ cols then cellAt r (colIdx cols "Trade_Name")
               else .s gstin,
      taxable := tv, invVal := tv + tot,
      igst := ig, cgst := cg, sgst := sg, tot := tot })

/-- Embedding of `parse_gstr2b` (lines 147-278). -/
def parse_gstr2b (df : List (List Value)) : PResult :=
  match g2bHeaderIdx? df with
  | none => .err .headerNotDetected
  | some _ =>
    let cols := (g2bColsAndStart df).1
    if "GSTIN" ∉ cols ∨ "Invoice_No" ∉ cols ∨ "Invoice_Date" ∉ cols then
      .err .requiredMissing
    else .ok (finalizeRows (g2bPre df))

/- ### Reconciliation matcher: `reconcile` (lines 283-334) -/

/-- `Match_Key` (lines 285-286): GSTIN and Invoice_No joined by `|`. -/
def rowKey (r : CanonRow) : String := r.gstin ++ "|" ++ r.invoice_no

/-- The eight aggregates of the `summary` dict (lines 316-325). -/
structure Summary where
  total_invoices_books : Nat
  total_invoices_2b : Nat
  total_matched : Nat
  total_missing_books : Nat
  total_missing_2b : Nat
  total_itc_books : ℚ
  total_itc_2b : ℚ
  itc_difference : ℚ
deriving DecidableEq

/-- The dictionary returned by `reconcile` (lines 327-334). -/
structure ReconResult where
  fully_matched : List (CanonRow × CanonRow)
  missing_in_books : List CanonRow
  missing_in_2b : List CanonRow
  value_mismatch : List (CanonRow × CanonRow)
  tax_mismatch : List (CanonRow × CanonRow)
  summary : Summary
deriving DecidableEq

/-- Line 300: dates within 5 days. -/
def dateMatchB (p : CanonRow × CanonRow) : Bool :=
  decide (|p.1.invoice_date - p.2.invoice_date| ≤ 5)

/-- Line 301: taxable values within 1. -/
def valueMatchB (p : CanonRow × CanonRow) : Bool :=
  decide (|p.1.taxable_value - p.2.taxable_value| ≤ 1)

/-- Line 302: total taxes within 1. -/
def taxMatchB (p : CanonRow × CanonRow) : Bool :=
  decide (|p.1.total_tax - p.2.total_tax| ≤ 1)

/-- The inner join on `Match_Key` of the two tables restricted to keys
present in both (lines 291-298): left-frame order, cross product per
key. -/
def mergedPairs (g t : List CanonRow) : List (CanonRow × CanonRow) :=
  let gk := g.map rowKey
  let tk := t.map rowKey
  let commonB := fun k => decide (k ∈ gk) && decide (k ∈ tk)
  (g.filter (fun a => commonB (rowKey a))).flatMap (fun a =>
    ((t.filter (fun b => commonB (rowKey b))).filter
      (fun b => rowKey b == rowKey a)).map (fun b => (a, b)))

/-- The classification and summary of `reconcile` on the two row lists
(lines 288-325); `value_mismatch` is the concatenation with the
both-mismatch pairs followed by `drop_duplicates()` (lines 313-314). -/
def reconRows (g t : List CanonRow) : ReconResult :=
  let gk := g.map rowKey
  let tk := t.map rowKey
  let missB := g.filter (fun a => !(decide (rowKey a ∈ tk)))
  let miss2b := t.filter (fun b => !(decide (rowKey b ∈ gk)))
  let merged := mergedPairs g t
  let fully := merged.filter (fun p => dateMatchB p && valueMatchB p && taxMatchB p)
  let vm0 := merged.filter (fun p => dateMatchB p && !(valueMatchB p))
  let tm := merged.filter (fun p => dateMatchB p && valueMatchB p && !(taxMatchB p))
  let both := merged.filter (fun p => dateMatchB p && !(valueMatchB p) && !(taxMatchB p))
  { fully_matched := fully,
    missing_in_books := missB,
    missing_in_2b := miss2b,
    value_mismatch := dedupBy id [] (vm0 ++ both),
    tax_mismatch := tm,
    summary :=
      { total_invoices_books := t.length,
        total_invoices_2b := g.length,
        total_matched := fully.length,
        total_missing_books := missB.length,
        total_missing_2b := miss2b.length,
        total_itc_books := (t.map (fun r => r.total_tax)).sum,
        total_itc_2b := (g.map (fun r => r.total_tax)).sum,
        itc_difference := (g.map (fun r => r.total_tax)).sum -
          (t.map (fun r => r.total_tax)).sum } }

/-- A canonical table as a dataframe object: its rows plus the optional
`Match_Key` column. -/
structure PdTable where
  rows : List CanonRow
  matchKeyCol : Option (List String)
deriving DecidableEq

/-- Embedding of `reconcile` (lines 283-334). The Python function
mutates both dataframe arguments by assigning them a `Match_Key` column
(lines 285-286); the post-call state of the two arguments is returned
alongside the result. -/
def reconcile (gstr2b_df tally_df : PdTable) : ReconResult × PdTable × PdTable :=
  let gq : PdTable := ⟨gstr2b_df.rows, some (gstr2b_df.rows.map rowKey)⟩
  let tq : PdTable := ⟨tally_df.rows, some (tally_df.rows.map rowKey)⟩
  (reconRows gstr2b_df.rows tally_df.rows, gq, tq)
def PResult.isOk : PResult → Bool
  | .ok _ => true
  | .err _ => false

def PResult.okD : PResult → List CanonRow
  | .ok rows => rows
  | .err _ => []

/- ### Concrete example tables -/

/-- A books export whose column row carries the canonical names directly,
so that no scanned row holds both a `date` and a `particular` marker. -/
def cexC2 : List (List Value) :=
  [[.s "GSTIN", .s "Invoice_No", .s "Invoice_Date", .s "Trade_Name"],
   [.s "07AAACI1234A1Z5", .s "INV1", .s "01-Apr-24", .s "ACME"]]

/-- A books export in the exact documented Tally layout with an
`Input_CGST` tax column. -/
def cexC3 : List (List Value) :=
  [[.s "Date", .s "Particulars", .s "Supplier Invoice No.", .s "GSTIN/UIN", .s "Input_CGST"],
   [.s "01-Apr-24", .s "ACME", .s "INV1", .s "07AAACI1234A1Z5", .s "9"]]

/-- A books export whose data row has a missing (`NaN`) GSTIN cell. -/
def cexC4 : List (List Value) :=
  [[.s "Date", .s "Particulars", .s "Supplier Invoice No.", .s "GSTIN/UIN"],
   [.s "01-Apr-24", .s "ACME", .s "INV1", .na]]

/-- A books export with no column that maps to `Trade_Name`. -/
def cexC8 : List (List Value) :=
  [[.s "Date", .s "Supplier Invoice No.", .s "GSTIN/UIN"],
   [.s "01-Apr-24", .s "INV1", .s "07AAACI1234A1Z5"]]

/-- A books export containing a duplicate `(GSTIN, Invoice_No)` pair. -/
def cexDup : List (List Value) :=
  [[.s "Date", .s "Particulars", .s "Supplier Invoice No.", .s "GSTIN/UIN"],
   [.s "01-Apr-24", .s "ACME", .s "INV1", .s "07AAACI1234A1Z5"],
   [.s "02-Apr-24", .s "ACME LTD", .s "INV-1", .s "07AAACI1234A1Z5"]]

/-- A statement export with no column that maps to `Trade_Name` (the row
after the header is blank, so the single-row-header path is taken). -/
def gWitTbl : List (List Value) :=
  [[.s "GSTIN of supplier", .s "Invoice Number", .s "Invoice Date",
    .s "Taxable Value", .s "Integrated Tax"],
   [.na, .na, .na, .na, .na],
   [.s "07AAACI1234A1Z5", .s "INV1", .s "01-04-2024", .n 1000, .n 180]]


/-- Statement-side row: key `07AAACI1234A1Z5|INV1`, taxable 1000. -/
def rowA : CanonRow :=
  { gstin := "07AAACI1234A1Z5", trade_name := .s "ACME", invoice_no := "INV1",
    invoice_date := 19814, month := "2024-04", taxable_value := 1000,
    invoice_value := 1180, igst := 180, cgst := 0, sgst := 0, total_tax := 180 }

/-- Books-side row with the same key, one day later, taxable 1050. -/
def rowB : CanonRow :=
  { gstin := "07AAACI1234A1Z5", trade_name := .s "ACME LTD", invoice_no := "INV1",
    invoice_date := 19815, month := "2024-04", taxable_value := 1050,
    invoice_value := 1230, igst := 180, cgst := 0, sgst := 0, total_tax := 180 }

/-- Tolerance-boundary row: taxable 0, total tax 0. -/
def rC7a : CanonRow :=
  { gstin := "07AAACI1234A1Z5", trade_name := .s "ACME", invoice_no := "INV2",
    invoice_date := 19814, month := "2024-04", taxable_value := 0,
    invoice_value := 0, igst := 0, cgst := 0, sgst := 0, total_tax := 0 }

/-- Tolerance-boundary row: taxable differs by exactly 1, total tax by
exactly 1.01. -/
def rC7b : CanonRow :=
  { gstin := "07AAACI1234A1Z5", trade_name := .s "ACME", invoice_no := "INV2",
    invoice_date := 19814, month := "2024-04", taxable_value := 1,
    invoice_value := 1, igst := 101/100, cgst := 0, sgst := 0, total_tax := 101/100 }

/-- A statement-side dataframe without a `Match_Key` column. -/
def gT6 : PdTable := ⟨[rowA], none⟩

/-- A books-side dataframe without a `Match_Key` column. -/
def tT6 : PdTable := ⟨[rowB], none⟩

/- ### Character-level lemmas -/

theorem toNat_ofNat_of_lt {m : Nat} (h : m < 55296) : (Char.ofNat m).toNat = m := by
  rw [Char.ofNat, dif_pos (Or.inl h)]
  rfl

theorem upChar_eq_self {c : Char} (h : ¬(97 ≤ c.toNat ∧ c.toNat ≤ 122)) :
    upChar c = c := by
  unfold upChar
  exact if_neg h

theorem upChar_toNat (c : Char) :
    (upChar c).toNat = if 97 ≤ c.toNat ∧ c.toNat ≤ 122 then c.toNat - 32 else c.toNat := by
  unfold upChar
  split_ifs with h
  · exact toNat_ofNat_of_lt (by omega)
  · rfl

theorem upChar_upChar (c : Char) : upChar (upChar c) = upChar c := by
  by_cases h : 97 ≤ c.toNat ∧ c.toNat ≤ 122
  · refine upChar_eq_self ?_
    rw [upChar_toNat, if_pos h]
    omega
  · rw [upChar_eq_self h, upChar_eq_self h]

theorem wsChar_upChar (c : Char) : wsChar (upChar c) = wsChar c := by
  simp only [wsChar, upChar_toNat, decide_eq_decide]
  split_ifs with h <;> omega

theorem upChar_eq_self_of_keep {c : Char} (h : keepChar c = true) : upChar c = c := by
  simp only [keepChar, decide_eq_true_eq] at h
  exact upChar_eq_self (by omega)

theorem wsChar_eq_false_of_keep {c : Char} (h : keepChar c = true) : wsChar c = false := by
  simp only [keepChar, decide_eq_true_eq] at h
  simp only [wsChar, decide_eq_false_iff_not]
  omega

/- ### Strip-level lemmas -/

theorem dropWhile_eq_self_of_head {p : α → Bool} {l : List α}
    (h : ∀ x ∈ l.head?, p x = false) : l.dropWhile p = l := by
  cases l with
  | nil => rfl
  | cons a t =>
    have ha : p a = false := h a rfl
    simp [List.dropWhile_cons, ha]

theorem head_of_dropWhile_fails {p : α → Bool} {l : List α} :
    ∀ x ∈ (l.dropWhile p).head?, p x = false := by
  intro x hx
  have h := List.head?_dropWhile_not p l
  cases hh : (l.dropWhile p).head? with
  | none => rw [hh] at hx; cases hx
  | some y =>
    rw [hh] at h hx
    cases hx
    exact h

theorem getLast?_dropWhile {p : α → Bool} {l : List α}
    (h : l.dropWhile p ≠ []) : (l.dropWhile p).getLast? = l.getLast? := by
  induction l with
  | nil => simp at h
  | cons a t ih =>
    by_cases hp : p a = true
    · rw [List.dropWhile_cons_of_pos hp] at h ⊢
      have ht : t ≠ [] := by
        intro he
        rw [he] at h
        simp at h
      rw [ih h]
      cases t with
      | nil => exact absurd rfl ht
      | cons b t' => rw [List.getLast?_cons_cons]
    · rw [List.dropWhile_cons_of_neg (by simp [hp])]

theorem pyStrip_head {l : List Char} : ∀ x ∈ (pyStrip l).head?, wsChar x = false := by
  intro x hx
  unfold pyStrip at hx
  rw [List.head?_reverse] at hx
  set A := l.dropWhile wsChar with hA
  have hne : A.reverse.dropWhile wsChar ≠ [] := by
    intro he
    rw [he] at hx
    cases hx
  rw [getLast?_dropWhile hne, List.getLast?_reverse] at hx
  exact head_of_dropWhile_fails x hx

theorem pyStrip_getLast {l : List Char} : ∀ x ∈ (pyStrip l).getLast?, wsChar x = false := by
  intro x hx
  unfold pyStrip at hx
  rw [List.getLast?_reverse] at hx
  exact head_of_dropWhile_fails x hx

theorem pyStrip_eq_self {l : List Char}
    (h1 : ∀ x ∈ l.head?, wsChar x = false)
    (h2 : ∀ x ∈ l.getLast?, wsChar x = false) : pyStrip l = l := by
  unfold pyStrip
  rw [dropWhile_eq_self_of_head h1]
  rw [dropWhile_eq_self_of_head (by simpa [List.head?_reverse] using h2)]
  exact List.reverse_reverse l

theorem pyStrip_pyStrip (l : List Char) : pyStrip (pyStrip l) = pyStrip l :=
  pyStrip_eq_self pyStrip_head pyStrip_getLast

theorem pyStrip_map_upChar (l : List Char) :
    pyStrip (l.map upChar) = (pyStrip l).map upChar := by
  have hw : (wsChar ∘ upChar) = wsChar := funext fun c => wsChar_upChar c
  unfold pyStrip
  rw [List.dropWhile_map, hw, ← List.map_reverse, List.dropWhile_map, hw,
    ← List.map_reverse]

theorem pyStrip_eq_self_of_all {l : List Char}
    (h : ∀ x ∈ l, wsChar x = false) : pyStrip l = l :=
  pyStrip_eq_self
    (fun x hx => h x (List.mem_of_mem_head? hx))
    (fun x hx => h x (List.mem_of_mem_getLast? hx))

/- ### Idempotence of the cleaning primitives (claim C10) -/

theorem map_upChar_idem (l : List Char) :
    (l.map upChar).map upChar = l.map upChar := by
  rw [List.map_map]
  exact List.map_congr_left fun c _ => upChar_upChar c

theorem clean_string_clean_string (v : Value) :
    clean_string (.s (clean_string v)) = clean_string v := by
  cases v with
  | na => rfl
  | s w =>
    show upStr (stripStr (.mk ((pyStrip w.data).map upChar)))
        = upStr (stripStr w)
    unfold upStr stripStr
    rw [pyStrip_map_upChar, pyStrip_pyStrip]
    exact congrArg String.mk (map_upChar_idem _)
  | n q =>
    show upStr (stripStr (.mk ((pyStrip (strOfValue (.n q)).data).map upChar)))
        = upStr (stripStr (strOfValue (.n q)))
    unfold upStr stripStr
    rw [pyStrip_map_upChar, pyStrip_pyStrip]
    exact congrArg String.mk (map_upChar_idem _)

theorem clean_invoice_clean_invoice (v : Value) :
    clean_invoice_number (.s (clean_invoice_number v)) = clean_invoice_number v := by
  cases v with
  | na => rfl
  | s w =>
    show String.mk (((pyStrip (((pyStrip w.data).map upChar).filter keepChar)).map
        upChar).filter keepChar) = _
    have hkeep : ∀ c ∈ ((pyStrip w.data).map upChar).filter keepChar,
        keepChar c = true := fun c hc => List.of_mem_filter hc
    rw [pyStrip_eq_self_of_all (fun c hc => wsChar_eq_false_of_keep (hkeep c hc))]
    rw [List.map_congr_left (fun c hc => upChar_eq_self_of_keep (hkeep c hc)),
      List.map_id']
    rw [List.filter_eq_self.mpr hkeep]
    rfl
  | n q =>
    show String.mk (((pyStrip (((pyStrip (strOfValue (.n q)).data).map upChar).filter
        keepChar)).map upChar).filter keepChar) = _
    have hkeep : ∀ c ∈ ((pyStrip (strOfValue (.n q)).data).map upChar).filter keepChar,
        keepChar c = true := fun c hc => List.of_mem_filter hc
    rw [pyStrip_eq_self_of_all (fun c hc => wsChar_eq_false_of_keep (hkeep c hc))]
    rw [List.map_congr_left (fun c hc => upChar_eq_self_of_keep (hkeep c hc)),
      List.map_id']
    rw [List.filter_eq_self.mpr hkeep]
    rfl

/-- C10: the field-cleaning primitives are idempotent: re-cleaning the
output of `clean_string` or of `clean_invoice_number` changes nothing. -/
theorem C10_clean_idempotent (v : Value) :
    clean_string (.s (clean_string v)) = clean_string v ∧
    clean_invoice_number (.s (clean_invoice_number v)) = clean_invoice_number v :=
  ⟨clean_string_clean_string v, clean_invoice_clean_invoice v⟩

theorem PResult.eq_ok_of_isOk {e : PResult} (h : e.isOk = true) : e = .ok e.okD := by
  cases e with
  | ok rows => rfl
  | err e => simp [PResult.isOk] at h

theorem mem_of_mem_dedupBy {β : Type} [DecidableEq β] {key : α → β}
    {seen : List β} {l : List α} {x : α}
    (h : x ∈ dedupBy key seen l) : x ∈ l := by
  induction l generalizing seen with
  | nil => simp [dedupBy] at h
  | cons a t ih =>
    simp only [dedupBy] at h
    by_cases hk : key a ∈ seen
    · rw [if_pos hk] at h
      exact List.mem_cons_of_mem _ (ih h)
    · rw [if_neg hk] at h
      rcases List.mem_cons.mp h with rfl | h'
      · exact List.mem_cons_self _ _
      · exact List.mem_cons_of_mem _ (ih h')

theorem key_not_seen_of_mem_dedupBy {β : Type} [DecidableEq β] {key : α → β}
    {seen : List β} {l : List α} {x : α}
    (h : x ∈ dedupBy key seen l) : key x ∉ seen := by
  induction l generalizing seen with
  | nil => simp [dedupBy] at h
  | cons a t ih =>
    simp only [dedupBy] at h
    by_cases hk : key a ∈ seen
    · rw [if_pos hk] at h
      exact ih h
    · rw [if_neg hk] at h
      rcases List.mem_cons.mp h with rfl | h'
      · exact hk
      · intro hs
        exact ih h' (List.mem_cons_of_mem _ hs)

theorem pairwise_dedupBy {β : Type} [DecidableEq β] (key : α → β)
    (seen : List β) (l : List α) :
    (dedupBy key seen l).Pairwise (fun a b => key a ≠ key b) := by
  induction l generalizing seen with
  | nil => simp [dedupBy]
  | cons a t ih =>
    simp only [dedupBy]
    by_cases hk : key a ∈ seen
    · rw [if_pos hk]
      exact ih seen
    · rw [if_neg hk]
      refine List.Pairwise.cons ?_ (ih (key a :: seen))
      intro b hb he
      exact key_not_seen_of_mem_dedupBy hb (he ▸ List.mem_cons_self _ _)

theorem mem_dedupBy_id [DecidableEq α] {seen : List α} {l : List α} {x : α} :
    x ∈ dedupBy id seen l ↔ x ∈ l ∧ x ∉ seen := by
  induction l generalizing seen with
  | nil => simp [dedupBy]
  | cons a t ih =>
    simp only [dedupBy, id]
    by_cases hk : a ∈ seen
    · rw [if_pos hk, ih]
      constructor
      · rintro ⟨h1, h2⟩
        exact ⟨List.mem_cons_of_mem _ h1, h2⟩
      · rintro ⟨h1, h2⟩
        rcases List.mem_cons.mp h1 with rfl | h1'
        · exact absurd hk h2
        · exact ⟨h1', h2⟩
    · rw [if_neg hk]
      constructor
      · intro h
        rcases List.mem_cons.mp h with rfl | h'
        · exact ⟨List.mem_cons_self _ _, hk⟩
        · rcases ih.mp h' with ⟨h1, h2⟩
          exact ⟨List.mem_cons_of_mem _ h1,
            fun hs => h2 (List.mem_cons_of_mem _ hs)⟩
      · rintro ⟨h1, h2⟩
        rcases List.mem_cons.mp h1 with rfl | h1'
        · exact List.mem_cons_self _ _
        · by_cases hxa : x = a
          · exact hxa ▸ List.mem_cons_self _ _
          · refine List.mem_cons_of_mem _ (ih.mpr ⟨h1', ?_⟩)
            intro hs
            rcases List.mem_cons.mp hs with h | h
            · exact hxa h
            · exact h2 h

theorem pairwise_finalizeRows (pre : List PreRow) :
    (finalizeRows pre).Pairwise
      (fun a b => ¬(a.gstin = b.gstin ∧ a.invoice_no = b.invoice_no)) := by
  unfold finalizeRows
  refine List.pairwise_map.mpr ?_
  refine List.Pairwise.imp ?_ ((pairwise_dedupBy keyPair [] pre).filter _)
  intro a b hne hand
  refine hne ?_
  unfold keyPair
  exact congrArg₂ Prod.mk hand.1 hand.2

theorem mem_finalizeRows {pre : List PreRow} {r : CanonRow}
    (h : r ∈ finalizeRows pre) : ∃ p ∈ pre, r = toCanon p := by
  unfold finalizeRows at h
  rcases List.mem_map.mp h with ⟨p, hp, rfl⟩
  exact ⟨p, mem_of_mem_dedupBy (List.mem_of_mem_filter hp), rfl⟩

/- ### Match-key injectivity (separator argument) -/

theorem append_pipe_inj : ∀ (g1 : List Char) {g2 i1 i2 : List Char},
    '|' ∉ i1 → '|' ∉ i2 → g1 ++ '|' :: i1 = g2 ++ '|' :: i2 →
    g1 = g2 ∧ i1 = i2 := by
  intro g1
  induction g1 with
  | nil =>
    intro g2 i1 i2 h1 h2 he
    cases g2 with
    | nil =>
      simp only [List.nil_append] at he
      exact ⟨rfl, (List.cons.injEq _ _ _ _).mp he |>.2⟩
    | cons c t =>
      simp only [List.nil_append, List.cons_append] at he
      rcases (List.cons.injEq _ _ _ _).mp he with ⟨hc, hrest⟩
      exact absurd (hrest ▸ List.mem_append_right t (List.mem_cons_self _ _)) h1
  | cons c t ih =>
    intro g2 i1 i2 h1 h2 he
    cases g2 with
    | nil =>
      simp only [List.nil_append, List.cons_append] at he
      rcases (List.cons.injEq _ _ _ _).mp he with ⟨hc, hrest⟩
      exact absurd (hrest ▸ List.mem_append_right t (List.mem_cons_self _ _)) h2
    | cons d u =>
      simp only [List.cons_append] at he
      rcases (List.cons.injEq _ _ _ _).mp he with ⟨hc, hrest⟩
      rcases ih h1 h2 hrest with ⟨hg, hi⟩
      exact ⟨by rw [hc, hg], hi⟩

theorem str_data_append (a b : String) : (a ++ b).data = a.data ++ b.data := by
  cases a
  cases b
  rfl

theorem str_eq_of_data (a b : String) (h : a.data = b.data) : a = b := by
  cases a
  cases b
  exact congrArg String.mk h

theorem rowKey_inj {a b : CanonRow}
    (ha : '|' ∉ a.invoice_no.data) (hb : '|' ∉ b.invoice_no.data)
    (h : rowKey a = rowKey b) : a.gstin = b.gstin ∧ a.invoice_no = b.invoice_no := by
  unfold rowKey at h
  have hd := congrArg String.data h
  rw [str_data_append, str_data_append, str_data_append, str_data_append] at hd
  have hpipe : ("|" : String).data = ['|'] := rfl
  rw [hpipe] at hd
  simp only [List.append_assoc, List.singleton_append] at hd
  rcases append_pipe_inj _ ha hb hd with ⟨hg, hi⟩
  exact ⟨str_eq_of_data _ _ hg, str_eq_of_data _ _ hi⟩

theorem pipe_not_mem_clean_invoice (v : Value) : '|' ∉ (clean_invoice_number v).data := by
  cases v with
  | na => simp [clean_invoice_number]
  | s w =>
    intro h
    have := List.of_mem_filter (p := keepChar) h
    simp [keepChar] at this
  | n q =>
    intro h
    have := List.of_mem_filter (p := keepChar) h
    simp [keepChar] at this

/- ### Success-shape lemmas for the two parsers -/

theorem parse_tally_ok {df : List (List Value)} {rows : List CanonRow}
    (h : parse_tally df = .ok rows) : rows = finalizeRows (tallyPre df) := by
  simp only [parse_tally] at h
  split at h
  · simp at h
  · split at h
    · simp at h
    · split at h
      · simp at h
      · injection h with h2
        exact h2.symm

theorem parse_gstr2b_ok {df : List (List Value)} {rows : List CanonRow}
    (h : parse_gstr2b df = .ok rows) : rows = finalizeRows (g2bPre df) := by
  simp only [parse_gstr2b] at h
  split at h
  · simp at h
  · split at h
    · simp at h
    · injection h with h2
      exact h2.symm

theorem tallyPre_inv_pipe {df : List (List Value)} {p : PreRow}
    (hp : p ∈ tallyPre df) : '|' ∉ p.inv.data := by
  simp only [tallyPre, List.mem_map] at hp
  rcases hp with ⟨r0, _, rfl⟩
  exact pipe_not_mem_clean_invoice _

theorem g2bPre_inv_pipe {df : List (List Value)} {p : PreRow}
    (hp : p ∈ g2bPre df) : '|' ∉ p.inv.data := by
  simp only [g2bPre, List.mem_map] at hp
  rcases hp with ⟨r0, _, rfl⟩
  exact pipe_not_mem_clean_invoice _

theorem finalize_key_pairwise {pre : List PreRow}
    (hp : ∀ p ∈ pre, '|' ∉ p.inv.data) :
    (finalizeRows pre).Pairwise (fun a b => rowKey a ≠ rowKey b) := by
  refine List.Pairwise.imp_of_mem ?_ (pairwise_finalizeRows pre)
  intro a b ha hb hne hkey
  rcases mem_finalizeRows ha with ⟨pa, hpa, rfl⟩
  rcases mem_finalizeRows hb with ⟨pb, hpb, rfl⟩
  exact hne (rowKey_inj (hp pa hpa) (hp pb hpb) hkey)

/-- C4 (amended): both normalizers drop duplicate `(GSTIN, Invoice_No)`
pairs (keeping the first occurrence) and rows with unparseable dates, so
no two returned rows share the key pair; rows whose GSTIN or Invoice_No
cleans to the empty string are NOT dropped (see the counterexample). -/
theorem C4_dedup_keeps_keys_unique (df : List (List Value)) (rows : List CanonRow) :
    (parse_tally df = .ok rows →
      rows.Pairwise (fun a b => ¬(a.gstin = b.gstin ∧ a.invoice_no = b.invoice_no))) ∧
    (parse_gstr2b df = .ok rows →
      rows.Pairwise (fun a b => ¬(a.gstin = b.gstin ∧ a.invoice_no = b.invoice_no))) := by
  constructor
  · intro h
    rw [parse_tally_ok h]
    exact pairwise_finalizeRows _
  · intro h
    rw [parse_gstr2b_ok h]
    exact pairwise_finalizeRows _

/-- C4 counterexample: on `cexC4` the books normalizer succeeds and
returns a row whose GSTIN is the empty string — rows with empty GSTIN
are not dropped, contrary to the claim. -/
theorem C4_counterexample :
    (parse_tally cexC4).isOk = true ∧
    (parse_tally cexC4).okD.map (fun r => r.gstin) = [""] := by decide

/-- C4 witness: the amended theorem applied to a concrete books table
with a duplicate `(GSTIN, Invoice_No)` pair. -/
theorem C4_witness :
    ((parse_tally cexDup).okD).Pairwise
      (fun a b => ¬(a.gstin = b.gstin ∧ a.invoice_no = b.invoice_no)) :=
  (C4_dedup_keeps_keys_unique cexDup ((parse_tally cexDup).okD)).1
    (PResult.eq_ok_of_isOk (by decide))

/-- C5: in every table returned by a normalizer, no two rows share a
`Match_Key` (cleaned GSTIN and cleaned Invoice_No joined by `|`): the
cleaned invoice number contains no `|`, so key equality forces pair
equality, and the pair is unique after deduplication. -/
theorem C5_match_key_unique (df : List (List Value)) (rows : List CanonRow)
    (h : parse_tally df = .ok rows ∨ parse_gstr2b df = .ok rows) :
    rows.Pairwise (fun a b => rowKey a ≠ rowKey b) := by
  rcases h with h | h
  · rw [parse_tally_ok h]
    exact finalize_key_pairwise (fun p hp => tallyPre_inv_pipe hp)
  · rw [parse_gstr2b_ok h]
    exact finalize_key_pairwise (fun p hp => g2bPre_inv_pipe hp)

/-- C5 witness: the theorem applied to a concrete books table that
contains a duplicate key pair. -/
theorem C5_witness :
    ((parse_tally cexDup).okD).Pairwise (fun a b => rowKey a ≠ rowKey b) :=
  C5_match_key_unique cexDup ((parse_tally cexDup).okD)
    (Or.inl (PResult.eq_ok_of_isOk (by decide)))

/-- C8 (amended): the statement normalizer defaults a missing
`Trade_Name` to the cleaned GSTIN: whenever `parse_gstr2b` succeeds on a
table none of whose columns mapped to `Trade_Name`, every returned row
has `Trade_Name` equal to its cleaned GSTIN string. (The books
normalizer instead fails with a `KeyError` in that situation — see the
counterexample.) -/
theorem C8_trade_name_default (df : List (List Value)) (rows : List CanonRow)
    (hok : parse_gstr2b df = .ok rows)
    (hno : "Trade_Name" ∉ (g2bColsAndStart df).1) :
    ∀ r ∈ rows, r.trade_name = Value.s r.gstin := by
  intro r hr
  rw [parse_gstr2b_ok hok] at hr
  rcases mem_finalizeRows hr with ⟨p, hp, rfl⟩
  simp only [g2bPre, List.mem_map] at hp
  rcases hp with ⟨r0, _, rfl⟩
  show (if "Trade_Name" ∈ (g2bColsAndStart df).1 then _ else Value.s _) = _
  rw [if_neg hno]
  rfl

/-- C8 counterexample: a books table whose required columns resolve but
which has no `Trade_Name` column; `parse_tally` raises a `KeyError`
instead of defaulting `Trade_Name` to the GSTIN. -/
theorem C8_counterexample :
    ("GSTIN" ∈ tallyCols cexC8 ∧ "Invoice_No" ∈ tallyCols cexC8 ∧
      "Invoice_Date" ∈ tallyCols cexC8 ∧ "Trade_Name" ∉ tallyCols cexC8) ∧
    parse_tally cexC8 = PResult.err ParseErr.keyErrorTrade := by decide

/-- C8 witness: the amended theorem applied to a concrete statement
table with no `Trade_Name` column; every returned row carries its GSTIN
as `Trade_Name`. -/
theorem C8_witness :
    ("Trade_Name" ∉ (g2bColsAndStart gWitTbl).1) ∧
    (parse_gstr2b gWitTbl).okD.all
      (fun r => decide (r.trade_name = Value.s r.gstin)) = true := by
  refine ⟨by decide, List.all_eq_true.mpr ?_⟩
  intro r hr
  exact decide_eq_true
    (C8_trade_name_default gWitTbl ((parse_gstr2b gWitTbl).okD)
      (PResult.eq_ok_of_isOk (by decide)) (by decide) r hr)

/-- C2 (amended): when no row within the 15-row scan window carries both
header markers, `parse_tally` does not fail with a header-not-detected
error: it falls back to row 0 as the header (`header_idx = 0`) and
proceeds with the rest of the pipeline (which may still fail for its own
reasons), and a header-not-detected error is never raised by
`parse_tally` on any input. -/
theorem C2_header_fallback (df : List (List Value)) :
    ((∀ i < min df.length 15, tallyMarkerRow (nthRow df i) = false) →
      tallyHeaderIdx df = 0) ∧
    parse_tally df ≠ PResult.err ParseErr.headerNotDetected := by
  constructor
  · intro h
    unfold tallyHeaderIdx
    rw [List.find?_eq_none.mpr]
    · rfl
    · intro i hi
      rw [List.mem_range] at hi
      simp [h i hi]
  · simp only [parse_tally]
    split
    · simp
    · split
      · simp
      · split
        · simp
        · simp

/-- C2 counterexample: a raw table with no marker row anywhere in the
scan window on which `parse_tally` nevertheless succeeds (by guessing
row 0 as the header) instead of failing with a header-not-detected
error. -/
theorem C2_counterexample :
    ((List.range (min cexC2.length 15)).all
      (fun i => !(tallyMarkerRow (nthRow cexC2 i)))) = true ∧
    (parse_tally cexC2).isOk = true := by decide

/-- C2 witness: the amended theorem applied to the concrete marker-free
table. -/
theorem C2_witness :
    tallyHeaderIdx cexC2 = 0 ∧
    parse_tally cexC2 ≠ PResult.err ParseErr.headerNotDetected :=
  ⟨(C2_header_fallback cexC2).1 (by decide), (C2_header_fallback cexC2).2⟩

/-- C3 (code bug): on a books table in the documented Tally layout with
an `Input_CGST` column, the tax column is detected and line 104 calls
`parse_numeric` on the whole pandas Series; its `pd.isna(value)` truth
test raises `ValueError: the truth value of a Series is ambiguous`, so
`parse_tally` fails instead of coercing each cell and summing the
matching columns row-wise as the specification describes. -/
theorem C3_tax_column_series_error :
    tallyHasTaxCol cexC3 = true ∧
    parse_tally cexC3 = PResult.err ParseErr.seriesAmbiguous := by decide

/-- C1: membership in the three classified sets of `reconcile` is
exactly as documented — `fully_matched` iff all three predicates hold,
`value_mismatch` iff `Date_Match` holds and `Value_Match` fails
(regardless of `Tax_Match`), `tax_mismatch` iff `Date_Match` and
`Value_Match` hold and `Tax_Match` fails — and every merged pair whose
dates match lands in exactly one of the three sets. -/
theorem C1_classification_partition (g t : List CanonRow) (p : CanonRow × CanonRow) :
    (p ∈ (reconRows g t).fully_matched ↔
      p ∈ mergedPairs g t ∧ dateMatchB p = true ∧ valueMatchB p = true ∧
        taxMatchB p = true) ∧
    (p ∈ (reconRows g t).value_mismatch ↔
      p ∈ mergedPairs g t ∧ dateMatchB p = true ∧ valueMatchB p = false) ∧
    (p ∈ (reconRows g t).tax_mismatch ↔
      p ∈ mergedPairs g t ∧ dateMatchB p = true ∧ valueMatchB p = true ∧
        taxMatchB p = false) ∧
    (p ∈ mergedPairs g t → dateMatchB p = true →
      (p ∈ (reconRows g t).fully_matched ∧ p ∉ (reconRows g t).value_mismatch ∧
        p ∉ (reconRows g t).tax_mismatch) ∨
      (p ∉ (reconRows g t).fully_matched ∧ p ∈ (reconRows g t).value_mismatch ∧
        p ∉ (reconRows g t).tax_mismatch) ∨
      (p ∉ (reconRows g t).fully_matched ∧ p ∉ (reconRows g t).value_mismatch ∧
        p ∈ (reconRows g t).tax_mismatch)) := by
  have hf : (reconRows g t).fully_matched =
      (mergedPairs g t).filter (fun q => dateMatchB q && valueMatchB q && taxMatchB q) := rfl
  have hv : (reconRows g t).value_mismatch =
      dedupBy id []
        ((mergedPairs g t).filter (fun q => dateMatchB q && !(valueMatchB q)) ++
         (mergedPairs g t).filter
           (fun q => dateMatchB q && !(valueMatchB q) && !(taxMatchB q))) := rfl
  have ht : (reconRows g t).tax_mismatch =
      (mergedPairs g t).filter
        (fun q => dateMatchB q && valueMatchB q && !(taxMatchB q)) := rfl
  have h1 : p ∈ (reconRows g t).fully_matched ↔
      p ∈ mergedPairs g t ∧ dateMatchB p = true ∧ valueMatchB p = true ∧
        taxMatchB p = true := by
    rw [hf, List.mem_filter]
    simp [Bool.and_eq_true, and_assoc]
  have h2 : p ∈ (reconRows g t).value_mismatch ↔
      p ∈ mergedPairs g t ∧ dateMatchB p = true ∧ valueMatchB p = false := by
    rw [hv, mem_dedupBy_id]
    simp only [List.mem_append, List.mem_filter, List.not_mem_nil,
      not_false_iff, and_true, Bool.and_eq_true, Bool.not_eq_true']
    constructor
    · rintro (⟨hm, hD, hV⟩ | ⟨hm, ⟨hD, hV⟩, _⟩)
      · exact ⟨hm, hD, hV⟩
      · exact ⟨hm, hD, hV⟩
    · rintro ⟨hm, hD, hV⟩
      exact Or.inl ⟨hm, hD, hV⟩
  have h3 : p ∈ (reconRows g t).tax_mismatch ↔
      p ∈ mergedPairs g t ∧ dateMatchB p = true ∧ valueMatchB p = true ∧
        taxMatchB p = false := by
    rw [ht, List.mem_filter]
    simp [Bool.and_eq_true, and_assoc, Bool.not_eq_true']
  refine ⟨h1, h2, h3, ?_⟩
  intro hm hD
  simp only [h1, h2, h3]
  cases hV : valueMatchB p with
  | false => simp [hm, hD, hV]
  | true =>
    cases hT : taxMatchB p with
    | true => simp [hm, hD, hV, hT]
    | false => simp [hm, hD, hV, hT]

/-- C1 witness: the partition implication applied to a concrete merged
pair whose dates match but whose taxable values differ by 50. -/
theorem C1_witness :
    ((rowA, rowB) ∈ (reconRows [rowA] [rowB]).fully_matched ∧
      (rowA, rowB) ∉ (reconRows [rowA] [rowB]).value_mismatch ∧
      (rowA, rowB) ∉ (reconRows [rowA] [rowB]).tax_mismatch) ∨
    ((rowA, rowB) ∉ (reconRows [rowA] [rowB]).fully_matched ∧
      (rowA, rowB) ∈ (reconRows [rowA] [rowB]).value_mismatch ∧
      (rowA, rowB) ∉ (reconRows [rowA] [rowB]).tax_mismatch) ∨
    ((rowA, rowB) ∉ (reconRows [rowA] [rowB]).fully_matched ∧
      (rowA, rowB) ∉ (reconRows [rowA] [rowB]).value_mismatch ∧
      (rowA, rowB) ∈ (reconRows [rowA] [rowB]).tax_mismatch) :=
  (C1_classification_partition [rowA] [rowB] (rowA, rowB)).2.2.2
    (by decide) (by decide)

/-- C7: the tolerance comparisons use `abs difference ≤ 1`
(equivalently, a mismatch is strict `>` against the tolerance): a
difference of exactly 1 matches and a difference of 1.01 does not, for
both the taxable-value and the total-tax comparison. -/
theorem C7_tolerance_boundary (a b : CanonRow) :
    (valueMatchB (a, b) = true ↔ |a.taxable_value - b.taxable_value| ≤ 1) ∧
    (valueMatchB (a, b) = false ↔ 1 < |a.taxable_value - b.taxable_value|) ∧
    (|a.taxable_value - b.taxable_value| = 1 → valueMatchB (a, b) = true) ∧
    (|a.taxable_value - b.taxable_value| = 101/100 → valueMatchB (a, b) = false) ∧
    (taxMatchB (a, b) = true ↔ |a.total_tax - b.total_tax| ≤ 1) ∧
    (taxMatchB (a, b) = false ↔ 1 < |a.total_tax - b.total_tax|) ∧
    (|a.total_tax - b.total_tax| = 1 → taxMatchB (a, b) = true) ∧
    (|a.total_tax - b.total_tax| = 101/100 → taxMatchB (a, b) = false) := by
  simp only [valueMatchB, taxMatchB, decide_eq_true_eq, decide_eq_false_iff_not,
    not_le]
  refine ⟨trivial, trivial, ?_, ?_, trivial, trivial, ?_, ?_⟩
  · intro h
    rw [h]
  · intro h
    rw [h]
    norm_num
  · intro h
    rw [h]
  · intro h
    rw [h]
    norm_num

/-- C7 witness: concrete rows whose taxable values differ by exactly 1
(a match) and whose total taxes differ by exactly 1.01 (a mismatch). -/
theorem C7_witness :
    valueMatchB (rC7a, rC7b) = true ∧ taxMatchB (rC7a, rC7b) = false :=
  ⟨(C7_tolerance_boundary rC7a rC7b).2.2.1 (by norm_num [rC7a, rC7b]),
   (C7_tolerance_boundary rC7a rC7b).2.2.2.2.2.2.2 (by norm_num [rC7a, rC7b])⟩

/-- C9: `ITC_Difference` is the statement-side sum of `TOTAL_TAX` minus
the books-side sum over the full input tables; with an empty statement
table every books row is reported missing-in-statement, no pair is
matched, and the difference is `0 - sum(books TOTAL_TAX)`. -/
theorem C9_summary_itc (g t : List CanonRow) :
    (reconRows g t).summary.itc_difference =
      (g.map (fun r => r.total_tax)).sum - (t.map (fun r => r.total_tax)).sum ∧
    (reconRows [] t).missing_in_2b = t ∧
    (reconRows [] t).summary.total_matched = 0 ∧
    (reconRows [] t).summary.itc_difference =
      0 - (t.map (fun r => r.total_tax)).sum := by
  refine ⟨rfl, ?_, rfl, rfl⟩
  show t.filter _ = t
  rw [List.filter_eq_self]
  intro b _
  simp

/-- C6 counterexample: `reconcile` does not leave its first input
exactly as it was — it assigns the `Match_Key` column, so the post-call
state of the statement-side table differs from the pre-call state. -/
theorem C6_counterexample : (reconcile gT6 tT6).2.1 ≠ gT6 := by decide

/-- C6 (amended): `reconcile` is a pure function of the two inputs'
rows, but it mutates both dataframe arguments by assigning them a
`Match_Key` column; the rows themselves (every pre-existing column and
cell) are unchanged. -/
theorem C6_reconcile_mutates_inputs (g t : PdTable) :
    (reconcile g t).1 = reconRows g.rows t.rows ∧
    (reconcile g t).2.1.rows = g.rows ∧
    (reconcile g t).2.2.rows = t.rows ∧
    (reconcile g t).2.1.matchKeyCol = some (g.rows.map rowKey) ∧
    (reconcile g t).2.2.matchKeyCol = some (t.rows.map rowKey) :=
  ⟨rfl, rfl, rfl, rfl, rfl⟩

end GstRecon
